import Mathlib

/-!
Verification of the coordination layer of the Hackathon-Symbiotic-Agent
repository: the priority queue used for deferred work, the type-keyed
message router, the agent lifecycle manager (functions/src/core/agentManager.ts),
the dual-worker ingestion hub (functions/src/core/userCommunicationHub.ts)
and the user-message worker (functions/src/agents/communication/userMessageProcessor.ts),
embedded shallowly as Lean functions and explicit state transitions.
External collaborators (Firestore reads and writes, the LLM network call,
socket delivery) are represented by explicit outcome parameters, so every
control path of the embedded code is a concrete Lean value.
-/

namespace HackathonAgent

/-! Section 1: the priority queue. The implementation file
functions/src/utils/priorityQueue.ts is not among the provided sources (only
its caller functions/src/core/userCommunicationHub.ts is), so the queue is
modelled from the spec's contract in sections 3 and 4.1. -/

/-- Modelled from the spec: a Queue Entry wraps a payload of generic type `T`
with an integer `priority` and a monotonically increasing `sequence` number
(functions/src/utils/priorityQueue.ts is missing from the sources). -/
structure QueueEntry (T : Type) where
  item : T
  priority : Nat
  sequence : Nat
deriving Repr, DecidableEq

/-- Modelled from the spec: the queue state is the list of waiting entries in
enqueue order plus the next sequence number to assign atomically at enqueue
(functions/src/utils/priorityQueue.ts is missing from the sources). -/
structure PriorityQueue (T : Type) where
  entries : List (QueueEntry T)
  nextSequence : Nat
deriving Repr, DecidableEq

namespace PriorityQueue

variable {T : Type}

/-- Modelled from the spec: a freshly constructed queue is empty. -/
def empty (T : Type) : PriorityQueue T := ⟨[], 0⟩

/-- Modelled from the spec: enqueue(item, priority) appends one entry carrying
the next sequence number and bumps the counter; no item is ever dropped and
capacity is unbounded at this layer. -/
def enqueue (q : PriorityQueue T) (item : T) (priority : Nat) : PriorityQueue T :=
  ⟨q.entries ++ [⟨item, priority, q.nextSequence⟩], q.nextSequence + 1⟩

/-- Ordering used by dequeue: entry `a` wins over `b` when its priority value
is strictly lower, or the priorities are equal and its sequence number is no
larger (FIFO among equal priorities). -/
def entryLe (a b : QueueEntry T) : Bool :=
  Nat.blt a.priority b.priority ||
    (Nat.beq a.priority b.priority && Nat.ble a.sequence b.sequence)

/-- Scan for the winning entry: keep the current best unless a later entry
strictly beats it. -/
def selectBest (best : QueueEntry T) : List (QueueEntry T) → QueueEntry T
  | [] => best
  | e :: rest => selectBest (if entryLe best e then best else e) rest

/-- Remove the first entry carrying the given sequence number. -/
def removeBySequence : List (QueueEntry T) → Nat → List (QueueEntry T)
  | [], _ => []
  | e :: rest, s => if e.sequence == s then rest else e :: removeBySequence rest s

/-- Selection step of dequeue on the entry list: the winning entry and the
remaining entries, or an empty result on the empty list. -/
def dequeueList : List (QueueEntry T) → Option (QueueEntry T) × List (QueueEntry T)
  | [] => (none, [])
  | e :: rest =>
      let best := selectBest e rest
      (some best, removeBySequence (e :: rest) best.sequence)

/-- Modelled from the spec: dequeue returns the entry with the lowest
priority value, breaking ties by lowest sequence number, and removes it from
the queue; dequeue on an empty queue returns an empty result, not an error. -/
def dequeue (q : PriorityQueue T) : Option (QueueEntry T) × PriorityQueue T :=
  ((dequeueList q.entries).1, ⟨(dequeueList q.entries).2, q.nextSequence⟩)

/-- isEmpty of the spec's contract. -/
def isEmpty (q : PriorityQueue T) : Bool := q.entries.isEmpty

/-- size of the spec's contract. -/
def size (q : PriorityQueue T) : Nat := q.entries.length

theorem entryLe_iff (a b : QueueEntry T) :
    entryLe a b = true ↔
      a.priority < b.priority ∨ (a.priority = b.priority ∧ a.sequence ≤ b.sequence) := by
  simp [entryLe, Nat.blt_eq, Nat.ble_eq, Nat.beq_eq]

theorem entryLe_refl (a : QueueEntry T) : entryLe a a = true := by
  rw [entryLe_iff]; omega

theorem entryLe_total (a b : QueueEntry T) : entryLe a b = true ∨ entryLe b a = true := by
  rw [entryLe_iff, entryLe_iff]; omega

theorem entryLe_trans {a b c : QueueEntry T} (hab : entryLe a b = true)
    (hbc : entryLe b c = true) : entryLe a c = true := by
  rw [entryLe_iff] at hab hbc ⊢; omega

theorem selectBest_le (l : List (QueueEntry T)) : ∀ (best : QueueEntry T),
    ∀ x ∈ best :: l, entryLe (selectBest best l) x = true := by
  induction l with
  | nil =>
      intro best x hx
      simp only [List.mem_singleton] at hx
      rw [hx]
      show entryLe best best = true
      exact entryLe_refl best
  | cons e rest ih =>
      intro best x hx
      simp only [List.mem_cons] at hx
      by_cases hbe : entryLe best e = true
      · have hrun : selectBest best (e :: rest) = selectBest best rest := by
          simp [selectBest, hbe]
        rcases hx with hx | hx | hx
        · rw [hrun, hx]; exact ih best best (List.mem_cons_self best rest)
        · rw [hrun, hx]
          exact entryLe_trans (ih best best (List.mem_cons_self best rest)) hbe
        · rw [hrun]; exact ih best x (List.mem_cons_of_mem best hx)
      · have hrun : selectBest best (e :: rest) = selectBest e rest := by
          simp [selectBest, hbe]
        have heb : entryLe e best = true := by
          rcases entryLe_total best e with h | h
          · exact absurd h hbe
          · exact h
        rcases hx with hx | hx | hx
        · rw [hrun, hx]
          exact entryLe_trans (ih e e (List.mem_cons_self e rest)) heb
        · rw [hrun, hx]; exact ih e e (List.mem_cons_self e rest)
        · rw [hrun]; exact ih e x (List.mem_cons_of_mem e hx)

theorem dequeue_min (q : PriorityQueue T) (e : QueueEntry T) (q' : PriorityQueue T)
    (h : q.dequeue = (some e, q')) :
    ∀ x ∈ q.entries,
      e.priority < x.priority ∨ (e.priority = x.priority ∧ e.sequence ≤ x.sequence) := by
  intro x hx
  cases hq : q.entries with
  | nil => simp [dequeue, dequeueList, hq] at h
  | cons a rest =>
      have hfst : q.dequeue.1 = some (selectBest a rest) := by
        simp [dequeue, dequeueList, hq]
      rw [h] at hfst
      have hbest : selectBest a rest = e := (Option.some.inj hfst).symm
      rw [hq] at hx
      have := selectBest_le rest a x hx
      rw [hbest, entryLe_iff] at this
      exact this

end PriorityQueue

/-- One call on a queue instance: an enqueue with a priority, or a dequeue. -/
inductive QueueOp (T : Type)
  | enq (item : T) (priority : Nat)
  | deq

/-- Run an interleaved sequence of calls, recording for each dequeue call its
result together with the queue state on which it was performed. -/
def runOps {T : Type} (q : PriorityQueue T) :
    List (QueueOp T) → List (Option (QueueEntry T) × PriorityQueue T)
  | [] => []
  | QueueOp.enq it p :: rest => runOps (q.enqueue it p) rest
  | QueueOp.deq :: rest =>
      (q.dequeue.1, q) :: runOps q.dequeue.2 rest

theorem runOps_dequeue_state {T : Type} (ops : List (QueueOp T)) :
    ∀ (q0 : PriorityQueue T), ∀ p ∈ runOps q0 ops, p.1 = p.2.dequeue.1 := by
  induction ops with
  | nil => intro q0 p hp; simp [runOps] at hp
  | cons op rest ih =>
      intro q0 p hp
      cases op with
      | enq it pr => exact ih (q0.enqueue it pr) p hp
      | deq =>
          rw [runOps] at hp
          rcases List.mem_cons.mp hp with hp | hp
          · subst hp; rfl
          · exact ih q0.dequeue.2 p hp

/-- The spec's worked example: enqueue A at priority 3, B at 1, C at 2 and
B2 at 1 on a fresh queue. -/
def exampleQueueC1 : PriorityQueue String :=
  ((((PriorityQueue.empty String).enqueue "A" 3).enqueue "B" 1).enqueue "C" 2).enqueue "B2" 1

/-- Dequeue up to `n` times and list the returned entries. -/
def drainN {T : Type} : Nat → PriorityQueue T → List (QueueEntry T)
  | 0, _ => []
  | n + 1, q =>
      match q.dequeue with
      | (none, _) => []
      | (some e, q') => e :: drainN n q'

/-- C1: for every interleaved sequence of enqueue and dequeue calls on one
queue instance, each dequeue returns the not-yet-dequeued entry with the
lowest priority value, breaking ties by the lowest sequence number (earliest
enqueue); after enqueuing A at 3, B at 1, C at 2 and B2 at 1 the dequeue
order is B, B2, C, A; and dequeue on an empty queue returns an empty result
rather than an error. -/
theorem C1_priority_queue_ordering :
    (∀ (T : Type) (q : PriorityQueue T) (e : QueueEntry T) (q' : PriorityQueue T),
        q.dequeue = (some e, q') →
        ∀ x ∈ q.entries,
          e.priority < x.priority ∨ (e.priority = x.priority ∧ e.sequence ≤ x.sequence))
  ∧ (∀ (T : Type) (ops : List (QueueOp T)) (q0 : PriorityQueue T),
        ∀ p ∈ runOps q0 ops, p.1 = p.2.dequeue.1)
  ∧ (drainN 4 exampleQueueC1).map QueueEntry.item = ["B", "B2", "C", "A"]
  ∧ (∀ (T : Type), (PriorityQueue.empty T).dequeue = (none, PriorityQueue.empty T)) := by
  refine ⟨fun T q e q' h => PriorityQueue.dequeue_min q e q' h,
          fun T ops q0 => runOps_dequeue_state ops q0, ?_, fun T => rfl⟩
  rfl

/-- Closed instance of C1: on the worked example queue the first dequeue
returns entry B (priority 1, sequence 1), which beats the entry A (priority
3, sequence 0) that is also waiting. -/
theorem C1_priority_queue_ordering_witness :
    (QueueEntry.mk "B" 1 1).priority < (QueueEntry.mk "A" 3 0).priority ∨
    ((QueueEntry.mk "B" 1 1).priority = (QueueEntry.mk "A" 3 0).priority ∧
      (QueueEntry.mk "B" 1 1).sequence ≤ (QueueEntry.mk "A" 3 0).sequence) :=
  C1_priority_queue_ordering.1 String exampleQueueC1 (QueueEntry.mk "B" 1 1)
    ⟨[⟨"A", 3, 0⟩, ⟨"C", 2, 2⟩, ⟨"B2", 1, 3⟩], 4⟩ rfl (QueueEntry.mk "A" 3 0)
    (List.Mem.head _)

/-! Section 2: worker availability and load-balanced selection, embedding
UserMessageProcessor.isAvailable
(functions/src/agents/communication/userMessageProcessor.ts) and
UserCommunicationHub.getAvailableProcessor
(functions/src/core/userCommunicationHub.ts). -/

/-- Observable scheduling state of one UserMessageProcessor worker:
isProcessing is the busy flag held for the duration of processUserMessage,
queueSize is processingQueue.size (the pending count). -/
structure WorkerState where
  isProcessing : Bool
  queueSize : Nat
deriving Repr, DecidableEq

/-- Embeds UserMessageProcessor.isAvailable: not busy and fewer than five
pending entries. -/
def isAvailable (w : WorkerState) : Bool :=
  !w.isProcessing && decide (w.queueSize < 5)

/-- Which of the two hub workers is selected. -/
inductive ProcessorChoice
  | one
  | two
deriving Repr, DecidableEq

/-- Embeds UserCommunicationHub.getAvailableProcessor: when processor1 is
available it is returned unless processor2 is also available and strictly
less loaded; when processor1 is unavailable, processor2 is returned
unconditionally. -/
def getAvailableProcessor (w1 w2 : WorkerState) : ProcessorChoice :=
  if isAvailable w1 then
    if !(isAvailable w2) then ProcessorChoice.one
    else if w1.queueSize ≤ w2.queueSize then ProcessorChoice.one
    else ProcessorChoice.two
  else ProcessorChoice.two

/-- The worker state selected by getAvailableProcessor. -/
def chosenWorker (w1 w2 : WorkerState) : WorkerState :=
  match getAvailableProcessor w1 w2 with
  | ProcessorChoice.one => w1
  | ProcessorChoice.two => w2

/-- C2 counterexample: with both workers idle but at the pending threshold
(busy flag false, pendingCount exactly 5, so neither is available),
getAvailableProcessor returns the second worker, whose pending count is 5 —
so a worker whose pendingCount is 5 or more can be returned, refuting the
claim as stated. -/
theorem C2_worker_selection_counterexample :
    getAvailableProcessor ⟨false, 5⟩ ⟨false, 5⟩ = ProcessorChoice.two ∧
    ¬ (chosenWorker ⟨false, 5⟩ ⟨false, 5⟩).queueSize < 5 := by decide

/-- C2 (amended): whenever at least one of the two workers is available (not
busy and pendingCount below 5), the selected worker is available — in
particular no busy worker and no worker at pendingCount 5 or more is
returned while the other is available; among two available workers the one
with the smaller pending count is preferred; when neither worker is
available the second worker is returned as a last resort, and only then can
a busy or saturated worker be selected. -/
theorem C2_worker_selection_amended (w1 w2 : WorkerState) :
    ((isAvailable w1 = true ∨ isAvailable w2 = true) →
      isAvailable (chosenWorker w1 w2) = true)
    ∧ ((isAvailable w1 = true ∧ isAvailable w2 = true) →
      (chosenWorker w1 w2).queueSize = min w1.queueSize w2.queueSize)
    ∧ ((isAvailable w1 = false ∧ isAvailable w2 = false) →
      getAvailableProcessor w1 w2 = ProcessorChoice.two) := by
  by_cases h1 : isAvailable w1 = true
  · by_cases h2 : isAvailable w2 = true
    · by_cases hle : w1.queueSize ≤ w2.queueSize
      · have hch : chosenWorker w1 w2 = w1 := by
          simp [chosenWorker, getAvailableProcessor, h1, h2, hle]
        exact ⟨fun _ => by rw [hch]; exact h1,
               fun _ => by rw [hch]; omega,
               fun hc => absurd h1 (by simp [hc.1])⟩
      · have hch : chosenWorker w1 w2 = w2 := by
          simp [chosenWorker, getAvailableProcessor, h1, h2, hle]
        exact ⟨fun _ => by rw [hch]; exact h2,
               fun _ => by rw [hch]; omega,
               fun hc => absurd h1 (by simp [hc.1])⟩
    · have hch : chosenWorker w1 w2 = w1 := by
        simp [chosenWorker, getAvailableProcessor, h1, h2]
      exact ⟨fun _ => by rw [hch]; exact h1,
             fun hc => absurd hc.2 h2,
             fun hc => absurd h1 (by simp [hc.1])⟩
  · have hch : chosenWorker w1 w2 = w2 := by
      simp [chosenWorker, getAvailableProcessor, h1]
    refine ⟨fun hor => ?_, fun hc => absurd hc.1 h1,
            fun _ => by simp [getAvailableProcessor, h1]⟩
    rcases hor with h | h
    · exact absurd h h1
    · rw [hch]; exact h

/-- Closed instance of C2 (amended): with the first worker available at one
pending entry and the second worker busy, the selected worker is available. -/
theorem C2_worker_selection_amended_witness :
    isAvailable (chosenWorker ⟨false, 1⟩ ⟨true, 0⟩) = true :=
  (C2_worker_selection_amended ⟨false, 1⟩ ⟨true, 0⟩).1 (Or.inl (by decide))

/-! Section 3: message records (functions/src/models/communication.types.ts,
as the provided sources consume them) and the fallback priority heuristic
UserCommunicationHub.calculateMessagePriority. -/

/-- Context attached to a user message by handleIncomingMessage; userStatus
is the status string recorded for the sender. Both the context object and
the field may be absent, as in the source. -/
structure MessageContext where
  userStatus : Option String
deriving Repr, DecidableEq

/-- UserMessage as the hub builds it and the worker consumes it. -/
structure UserMessage where
  id : String
  userId : String
  userName : String
  content : String
  context : Option MessageContext
  timestamp : Nat
  status : String
deriving Repr, DecidableEq

/-- Whether the second character list is a leading run of the first. -/
def beginsWithChars : List Char → List Char → Bool
  | _, [] => true
  | [], _ :: _ => false
  | a :: as, b :: bs => a == b && beginsWithChars as bs

/-- Whether the first character list contains the second as a contiguous
run: String.prototype.includes of the source. -/
def containsChars : List Char → List Char → Bool
  | [], pat => pat.isEmpty
  | a :: rest, pat => beginsWithChars (a :: rest) pat || containsChars rest pat

/-- content.toLowerCase() of the source, over the characters of a string. -/
def lowerChars (s : String) : List Char := s.data.map Char.toLower

/-- The fixed urgency keyword list of calculateMessagePriority. -/
def urgentKeywords : List String :=
  ["blocked", "critical", "urgent", "help", "error", "broken"]

/-- Embeds UserCommunicationHub.calculateMessagePriority: priority 1 when
the lower-cased content contains any urgency keyword, else 2 when the
sender's recorded status is "blocked", else 3. -/
def calculateMessagePriority (m : UserMessage) : Nat :=
  if urgentKeywords.any (fun k => containsChars (lowerChars m.content) k.data) then 1
  else if (match m.context with
           | some c => c.userStatus == some "blocked"
           | none => false) then 2
  else 3

/-! Section 4: the user-message worker
(functions/src/agents/communication/userMessageProcessor.ts, the variant
with defensive defaults cited by the spec). The LLM call and the
delimiter/JSON extraction are represented by their outcome; everything after
them is embedded from the source control flow. -/

/-- Entity lists extracted by the analysis. -/
structure Entities where
  tasks : List String
  users : List String
  technicalTerms : List String
  files : List String
deriving Repr, DecidableEq

/-- MessageAnalysis as the worker consumes it; every field is optional
because the parsed LLM output may omit any of them. -/
structure MessageAnalysis where
  intent : Option String
  entities : Option Entities
  emotionalTone : Option String
  requiresAction : Option Bool
  actionType : Option String
  expertiseNeeded : Option (List String)
  messageId : Option String
deriving Repr, DecidableEq

/-- MessageClassification as the worker consumes it. -/
structure MessageClassification where
  urgency : Option String
  category : Option String
  routeTo : Option (List String)
  action : Option String
  confidence : Option Rat
deriving Repr, DecidableEq

/-- ProcessedMessage returned by processUserMessage and consumed by the hub;
fields are optional exactly where the hub defends against their absence. -/
structure ProcessedMessage where
  originalMessage : UserMessage
  intent : Option String
  entities : Option Entities
  urgency : Option String
  suggestedAction : Option String
  agentId : String
  processedAt : Nat
deriving Repr, DecidableEq

/-- Envelope of the router (spec section 3, with the field shapes used at
every sendMessage call site in the sources). -/
structure Envelope (P : Type) where
  type : String
  source : String
  target : String
  payload : P
  priority : Nat
  timestamp : Nat
  correlationId : Option String := none
deriving Repr, DecidableEq

/-- Fallback analysis substituted by the catch branch of
analyzeAndClassifyMessage when the structured LLM response cannot be
parsed. -/
def fallbackAnalysis : MessageAnalysis :=
  { intent := some "help"
  , entities := some ⟨[], [], [], []⟩
  , emotionalTone := some "neutral"
  , requiresAction := some true
  , actionType := some "immediate"
  , expertiseNeeded := some ["general"]
  , messageId := some "fallback" }

/-- Fallback classification substituted on a parse failure; the documented
default result with action provide_help and confidence 0.5. -/
def fallbackClassification : MessageClassification :=
  { urgency := some "medium"
  , category := some "help"
  , routeTo := some ["decision_engine"]
  , action := some "provide_help"
  , confidence := some (1 / 2 : Rat) }

/-- Outcome of the LLM call and the delimiter/JSON extraction inside
analyzeAndClassifyMessage, as observed by the surrounding control flow: the
call may yield no content at all, content that fails the delimiter match or
JSON.parse, or a parsed object whose analysis and classification members may
each be absent. -/
inductive ParsedResponse
  | noContent
  | parseFailure
  | parsed (analysis : Option MessageAnalysis)
      (classification : Option MessageClassification)
deriving Repr, DecidableEq

/-- Embeds analyzeAndClassifyMessage: missing content throws before the
parse block (and propagates); a delimiter or JSON.parse failure is caught
and replaced by the documented fallback pair; a parsed object is passed
through with its possibly-absent members. -/
def analyzeAndClassifyMessage (response : ParsedResponse) :
    Except String (Option MessageAnalysis × Option MessageClassification) :=
  match response with
  | ParsedResponse.noContent =>
      Except.error "No response content received from OpenAI for message analysis"
  | ParsedResponse.parseFailure =>
      Except.ok (some fallbackAnalysis, some fallbackClassification)
  | ParsedResponse.parsed a c => Except.ok (a, c)

/-- Embeds mapUrgencyToPriority: the fixed urgency-to-priority table with
default 3, applied the way the JS lookup priorityMap[urgency] || 3 behaves
on a possibly-absent urgency. -/
def mapUrgencyToPriority (urgency : Option String) : Nat :=
  match urgency with
  | some "critical" => 1
  | some "high" => 2
  | some "medium" => 3
  | some "low" => 4
  | _ => 3

/-- Payload of the worker's report envelope to the decision engine. -/
structure ReportPayload where
  analysis : Option MessageAnalysis
  classification : Option MessageClassification
  timestamp : Nat
deriving Repr, DecidableEq

/-- Embeds reportToDecisionEngine. The body dereferences
classification.urgency and then analysis.messageId while building the
envelope, so an absent classification or analysis object raises a TypeError
that propagates to the caller; otherwise the USER_COMMUNICATION report
envelope is produced. -/
def reportToDecisionEngine (agentId : String) (now : Nat)
    (analysis : Option MessageAnalysis)
    (classification : Option MessageClassification) :
    Except String (Envelope ReportPayload) :=
  match classification with
  | none =>
      Except.error "TypeError: Cannot read properties of undefined (reading urgency)"
  | some c =>
      match analysis with
      | none =>
          Except.error "TypeError: Cannot read properties of undefined (reading messageId)"
      | some a =>
          Except.ok
            { type := "USER_COMMUNICATION"
            , source := "user_message_processor_" ++ agentId
            , target := "decision_engine"
            , payload := ⟨some a, some c, now⟩
            , priority := mapUrgencyToPriority c.urgency
            , timestamp := now
            , correlationId := a.messageId }

/-- A possibly-absent string field with the JS || default, under which the
empty string is also replaced. -/
def stringOrDefault (v : Option String) (d : String) : String :=
  match v with
  | some s => if s.isEmpty then d else s
  | none => d

/-- A possibly-absent entities object with the JS || default. -/
def entitiesOrDefault (v : Option Entities) : Entities :=
  match v with
  | some e => e
  | none => ⟨[], [], [], []⟩

/-- Embeds processUserMessage of UserMessageProcessor: analyze and classify,
report to the decision engine, store the processed message (storeOutcome is
the Firestore add of storeProcessedMessage), then build the ProcessedMessage
with the documented defaults for absent fields. Any error raised along the
way propagates to the caller. -/
def processUserMessage (agentId : String) (now : Nat) (message : UserMessage)
    (response : ParsedResponse) (storeOutcome : Except String Unit) :
    Except String ProcessedMessage :=
  match analyzeAndClassifyMessage response with
  | Except.error e => Except.error e
  | Except.ok (a, c) =>
      match reportToDecisionEngine agentId now a c with
      | Except.error e => Except.error e
      | Except.ok _ =>
          match storeOutcome with
          | Except.error e => Except.error e
          | Except.ok _ =>
              Except.ok
                { originalMessage := message
                , intent := some (stringOrDefault (a.bind MessageAnalysis.intent) "help")
                , entities := some (entitiesOrDefault (a.bind MessageAnalysis.entities))
                , urgency := some (stringOrDefault (c.bind MessageClassification.urgency) "medium")
                , suggestedAction :=
                    some (stringOrDefault (c.bind MessageClassification.action) "provide_help")
                , agentId := agentId
                , processedAt := now }

/-- A concrete incoming message used by closed instances: the spec's worked
fallback example, with no recorded status beyond the default "active". -/
def exampleMessage : UserMessage :=
  { id := "msg_1"
  , userId := "u1"
  , userName := "User One"
  , content := "the build is broken, please help"
  , context := some ⟨some "active"⟩
  , timestamp := 0
  , status := "pending" }

/-- C7 counterexample: a structured response that parses to an object with
no analysis and no classification member is unusable and its intent and
urgency fields are missing, yet the worker does not recover: building the
report envelope dereferences the absent classification object and the
TypeError propagates out of processUserMessage. -/
theorem C7_default_substitution_counterexample :
    processUserMessage "gpt5mini_1" 0 exampleMessage
      (ParsedResponse.parsed none none) (Except.ok ()) =
    Except.error "TypeError: Cannot read properties of undefined (reading urgency)" := rfl

/-- C7 (amended): when the structured response is malformed (the delimiter
match or JSON.parse fails), the worker substitutes the documented default
result — intent help, urgency medium, action provide_help, confidence 0.5 —
and processUserMessage returns normally; likewise, a parsed response whose
analysis and classification objects are present but lack the
intent/urgency/action fields yields the defaults help, medium and
provide_help. Only a parsed response that omits the analysis or
classification object entirely escapes the recovery and propagates a
TypeError. -/
theorem C7_default_substitution_amended (agentId : String) (now : Nat)
    (m : UserMessage) (a : MessageAnalysis) (c : MessageClassification) :
    (processUserMessage agentId now m ParsedResponse.parseFailure (Except.ok ()) =
      Except.ok
        { originalMessage := m
        , intent := some "help"
        , entities := some ⟨[], [], [], []⟩
        , urgency := some "medium"
        , suggestedAction := some "provide_help"
        , agentId := agentId
        , processedAt := now })
    ∧ (fallbackAnalysis.intent = some "help"
        ∧ fallbackClassification.urgency = some "medium"
        ∧ fallbackClassification.action = some "provide_help"
        ∧ fallbackClassification.confidence = some (1 / 2 : Rat))
    ∧ (a.intent = none → c.urgency = none → c.action = none →
        processUserMessage agentId now m (ParsedResponse.parsed (some a) (some c))
          (Except.ok ()) =
        Except.ok
          { originalMessage := m
          , intent := some "help"
          , entities := some (entitiesOrDefault a.entities)
          , urgency := some "medium"
          , suggestedAction := some "provide_help"
          , agentId := agentId
          , processedAt := now }) := by
  refine ⟨rfl, ⟨rfl, rfl, rfl, rfl⟩, fun hi hu ha => ?_⟩
  simp [processUserMessage, analyzeAndClassifyMessage, reportToDecisionEngine,
        stringOrDefault, hi, hu, ha, Option.bind]

/-- Closed instance of C7 (amended): a parsed response whose analysis and
classification objects carry none of the intent, urgency and action fields
is recovered with the documented defaults. -/
theorem C7_default_substitution_amended_witness :
    processUserMessage "gpt5mini_1" 7 exampleMessage
      (ParsedResponse.parsed
        (some ⟨none, none, none, none, none, none, none⟩)
        (some ⟨none, none, none, none, none⟩))
      (Except.ok ()) =
    Except.ok
      { originalMessage := exampleMessage
      , intent := some "help"
      , entities := some (entitiesOrDefault none)
      , urgency := some "medium"
      , suggestedAction := some "provide_help"
      , agentId := "gpt5mini_1"
      , processedAt := 7 } :=
  (C7_default_substitution_amended "gpt5mini_1" 7 exampleMessage
      ⟨none, none, none, none, none, none, none⟩
      ⟨none, none, none, none, none⟩).2.2 rfl rfl rfl

/-! Section 5: the ingestion hub (functions/src/core/userCommunicationHub.ts):
observable effects, handleProcessedMessage, handleIncomingMessage and one
tick of the queue drain loop. Firestore reads, the worker attempt and the
router delivery are represented by their outcomes. -/

/-- Payload of the hub's USER_COMMUNICATION envelope to the decision
engine. -/
structure HubPayload where
  processedMessage : ProcessedMessage
  recommendedActions : List String
  affectedUsers : List String
deriving Repr, DecidableEq

/-- Observable side effects of the hub, in execution order. -/
inductive HubEffect
  | logError (tag : String)
  | processAttempt (choice : ProcessorChoice)
  | routerSend (env : Envelope HubPayload)
  | socketResponse (userId : String)
  | socketAck (userId : String) (messageId : String)
deriving Repr, DecidableEq

/-- Embeds UserCommunicationHub.determinePriority: the urgency table with
default 3, as priorityMap[processed.urgency] || 3. -/
def determinePriority (p : ProcessedMessage) : Nat :=
  match p.urgency with
  | some "critical" => 1
  | some "high" => 2
  | some "medium" => 3
  | some "low" => 4
  | _ => 3

/-- The JS guard !intent: the intent field is absent or the empty string. -/
def intentFalsy (intent : Option String) : Bool :=
  match intent with
  | none => true
  | some s => s.isEmpty

/-- The JS guard !processed || !processed.intent of handleProcessedMessage. -/
def intentMissing (p : Option ProcessedMessage) : Bool :=
  match p with
  | none => true
  | some pm => intentFalsy pm.intent

/-- Outcomes of the collaborator calls made by handleProcessedMessage:
generateRecommendations and identifyAffectedUsers read Firestore, and the
router delivery itself may fail. -/
structure DownstreamOracle where
  recommendations : Except String (List String)
  affectedUsers : Except String (List String)
  routerDeliver : Except String Unit

/-- Embeds UserCommunicationHub.handleProcessedMessage: an absent or
intent-less processed message is logged and dropped before any routing;
otherwise recommendations are generated, the USER_COMMUNICATION envelope is
published to the router addressed to the decision engine, and a response is
sent to the user over the socket when the user is connected. -/
def handleProcessedMessage (p : Option ProcessedMessage) (o : DownstreamOracle)
    (connections : List String) (now : Nat) :
    Except String (List HubEffect) :=
  match p with
  | none => Except.ok [HubEffect.logError "invalid_processed_message"]
  | some pm =>
      if intentFalsy pm.intent then
        Except.ok [HubEffect.logError "invalid_processed_message"]
      else
        match o.recommendations with
        | Except.error e => Except.error e
        | Except.ok recs =>
            match o.affectedUsers with
            | Except.error e => Except.error e
            | Except.ok users =>
                match o.routerDeliver with
                | Except.error e => Except.error e
                | Except.ok _ =>
                    Except.ok
                      ([HubEffect.routerSend
                          { type := "USER_COMMUNICATION"
                          , source := "user_communication_hub"
                          , target := "decision_engine"
                          , payload := ⟨pm, recs, users⟩
                          , priority := determinePriority pm
                          , timestamp := now }]
                       ++ (if connections.contains pm.originalMessage.userId
                           then [HubEffect.socketResponse pm.originalMessage.userId]
                           else []))

/-- C10: for every processed message whose intent field is missing (absent
message, absent intent, or empty intent), handleProcessedMessage returns
early with only a logged error: no envelope is published through the
router, no response is sent to the user, and no error is raised — the
message is silently dropped and never reaches the delivered state. -/
theorem C10_missing_intent_drops_message (p : Option ProcessedMessage)
    (o : DownstreamOracle) (connections : List String) (now : Nat)
    (h : intentMissing p = true) :
    handleProcessedMessage p o connections now =
      Except.ok [HubEffect.logError "invalid_processed_message"]
    ∧ (∀ effs, handleProcessedMessage p o connections now = Except.ok effs →
        ∀ e ∈ effs, (∀ env, e ≠ HubEffect.routerSend env)
          ∧ (∀ u, e ≠ HubEffect.socketResponse u)) := by
  have h1 : handleProcessedMessage p o connections now =
      Except.ok [HubEffect.logError "invalid_processed_message"] := by
    cases p with
    | none => rfl
    | some pm =>
        have hpm : intentFalsy pm.intent = true := by
          simpa [intentMissing] using h
        simp [handleProcessedMessage, hpm]
  refine ⟨h1, fun effs heq => ?_⟩
  rw [h1] at heq
  cases heq
  intro e he
  simp only [List.mem_singleton] at he
  subst he
  exact ⟨fun env => by simp, fun u => by simp⟩

/-- A downstream oracle whose collaborator calls all succeed trivially. -/
def quietDownstream : DownstreamOracle :=
  ⟨Except.ok [], Except.ok [], Except.ok ()⟩

/-- A processed message whose intent field is absent. -/
def intentlessProcessed : ProcessedMessage :=
  { originalMessage := exampleMessage
  , intent := none
  , entities := none
  , urgency := some "medium"
  , suggestedAction := none
  , agentId := "gpt5mini_1"
  , processedAt := 0 }

/-- Closed instance of C10: a processed message with an absent intent is
dropped with only the logged error. -/
theorem C10_missing_intent_drops_message_witness :
    handleProcessedMessage (some intentlessProcessed) quietDownstream [] 0 =
      Except.ok [HubEffect.logError "invalid_processed_message"] :=
  (C10_missing_intent_drops_message (some intentlessProcessed) quietDownstream
    [] 0 rfl).1

/-- The acknowledgment text the fallback path returns to the caller. -/
def processingAckText : String :=
  "I'm processing your message and will respond shortly."

/-- Outcomes of the collaborator calls of one handleIncomingMessage run: the
three Firestore context reads performed while building the UserMessage, the
selected worker's processUserMessage attempt, the downstream calls of
handleProcessedMessage, and the text generateUserResponse produces (that
function catches its own failures and always yields a string). -/
structure IngestOracle where
  userNameRead : Except String String
  currentTasksRead : Except String Unit
  userStatusRead : Except String String
  processOutcome : Except String ProcessedMessage
  downstream : DownstreamOracle
  responseText : String

/-- Mutable hub state shared by the ingestion path and the drain loop. -/
structure HubState where
  messageQueue : PriorityQueue UserMessage
  worker1 : WorkerState
  worker2 : WorkerState
  activeConnections : List String

/-- Fallback-path state update: enqueue the message on the shared queue at
its heuristic priority. -/
def enqueueFallback (st : HubState) (m : UserMessage) : HubState :=
  { st with messageQueue := st.messageQueue.enqueue m (calculateMessagePriority m) }

/-- The UserMessage handleIncomingMessage builds from the incoming content
and the context reads. -/
def builtMessage (userId msgId content userName userStatus : String)
    (now : Nat) : UserMessage :=
  { id := msgId
  , userId := userId
  , userName := userName
  , content := content
  , context := some ⟨some userStatus⟩
  , timestamp := now
  , status := "pending" }

/-- Embeds UserCommunicationHub.handleIncomingMessage: build the
UserMessage (the three context reads are outside the try/catch, so their
failures propagate raw), then attempt immediate processing on the worker
selected by getAvailableProcessor; on success the processed message is
handled downstream and the generated response text returned; on any failure
inside the try block the message is enqueued once with the heuristic
priority, an acknowledgment is emitted to the connected socket, and the
fixed acknowledgment text is returned. -/
def handleIncomingMessage (st : HubState) (userId msgId content : String)
    (now : Nat) (o : IngestOracle) :
    Except String (HubState × List HubEffect × String) :=
  match o.userNameRead with
  | Except.error e => Except.error e
  | Except.ok name =>
      match o.currentTasksRead with
      | Except.error e => Except.error e
      | Except.ok _ =>
          match o.userStatusRead with
          | Except.error e => Except.error e
          | Except.ok status =>
              let message := builtMessage userId msgId content name status now
              let choice := getAvailableProcessor st.worker1 st.worker2
              match (match o.processOutcome with
                     | Except.error e => Except.error e
                     | Except.ok processed =>
                         match handleProcessedMessage (some processed)
                             o.downstream st.activeConnections now with
                         | Except.error e => Except.error e
                         | Except.ok effs => Except.ok effs) with
              | Except.ok effs =>
                  Except.ok (st, HubEffect.processAttempt choice :: effs,
                    o.responseText)
              | Except.error _ =>
                  Except.ok
                    (enqueueFallback st message,
                     HubEffect.processAttempt choice ::
                       (if st.activeConnections.contains userId
                        then [HubEffect.socketAck userId msgId]
                        else []),
                     processingAckText)

/-- C3: when the immediate processing attempt throws, handleIncomingMessage
appends the message to the shared priority queue exactly once (one new
entry, everything else unchanged), with the priority computed by the
keyword/status heuristic, and the caller receives the immediate
acknowledgment rather than an error; the worked example content, with no
recorded status beyond the default active, gets priority 1, a
keyword-free message from a blocked sender gets 2, and a keyword-free
message from an unblocked sender gets 3. -/
theorem C3_fallback_enqueue_priority (st : HubState)
    (userId msgId content name status : String) (now : Nat) (o : IngestOracle)
    (err : String)
    (h1 : o.userNameRead = Except.ok name)
    (h2 : o.currentTasksRead = Except.ok ())
    (h3 : o.userStatusRead = Except.ok status)
    (hfail : o.processOutcome = Except.error err) :
    (handleIncomingMessage st userId msgId content now o =
      Except.ok
        (enqueueFallback st (builtMessage userId msgId content name status now),
         HubEffect.processAttempt (getAvailableProcessor st.worker1 st.worker2) ::
           (if st.activeConnections.contains userId
            then [HubEffect.socketAck userId msgId]
            else []),
         processingAckText))
    ∧ (∀ (m : UserMessage) (pr : Nat),
        (st.messageQueue.enqueue m pr).entries =
          st.messageQueue.entries ++ [⟨m, pr, st.messageQueue.nextSequence⟩])
    ∧ calculateMessagePriority
        (builtMessage "u1" "m1" "the build is broken, please help" "User One"
          "active" 0) = 1
    ∧ calculateMessagePriority
        (builtMessage "u1" "m1" "how do I deploy" "User One" "blocked" 0) = 2
    ∧ calculateMessagePriority
        (builtMessage "u1" "m1" "how do I deploy" "User One" "active" 0) = 3 := by
  refine ⟨?_, fun m pr => rfl, rfl, rfl, rfl⟩
  simp [handleIncomingMessage, h1, h2, h3, hfail]

/-- Closed instance of C3: a concrete failing attempt enqueues the worked
example message at heuristic priority 1 and returns the acknowledgment. -/
theorem C3_fallback_enqueue_priority_witness :
    handleIncomingMessage
      ⟨PriorityQueue.empty UserMessage, ⟨false, 0⟩, ⟨false, 0⟩, []⟩
      "u1" "m1" "the build is broken, please help" 0
      { userNameRead := Except.ok "User One"
      , currentTasksRead := Except.ok ()
      , userStatusRead := Except.ok "active"
      , processOutcome := Except.error "OpenAI unavailable"
      , downstream := quietDownstream
      , responseText := "unused" } =
    Except.ok
      (enqueueFallback ⟨PriorityQueue.empty UserMessage, ⟨false, 0⟩, ⟨false, 0⟩, []⟩
        (builtMessage "u1" "m1" "the build is broken, please help" "User One"
          "active" 0),
       [HubEffect.processAttempt ProcessorChoice.one],
       processingAckText) :=
  (C3_fallback_enqueue_priority
    ⟨PriorityQueue.empty UserMessage, ⟨false, 0⟩, ⟨false, 0⟩, []⟩
    "u1" "m1" "the build is broken, please help" "User One" "active" 0
    { userNameRead := Except.ok "User One"
    , currentTasksRead := Except.ok ()
    , userStatusRead := Except.ok "active"
    , processOutcome := Except.error "OpenAI unavailable"
    , downstream := quietDownstream
    , responseText := "unused" }
    "OpenAI unavailable" rfl rfl rfl rfl).1

/-- An ingest oracle whose collaborators all succeed. -/
def quietIngest : IngestOracle :=
  { userNameRead := Except.ok "User One"
  , currentTasksRead := Except.ok ()
  , userStatusRead := Except.ok "active"
  , processOutcome := Except.ok intentlessProcessed
  , downstream := quietDownstream
  , responseText := "all done" }

/-- An ingest oracle whose user-name context read fails. -/
def failingNameIngest : IngestOracle :=
  { quietIngest with userNameRead := Except.error "Firestore unavailable" }

/-- A hub state with an empty queue, two idle workers and no connections. -/
def exampleHubState : HubState :=
  ⟨PriorityQueue.empty UserMessage, ⟨false, 0⟩, ⟨false, 0⟩, []⟩

/-- C8 counterexample: when the Firestore read of the sender's name — made
while building the UserMessage, outside the try/catch of
handleIncomingMessage — fails, the raw error propagates to the caller and no
response (neither a result nor the acknowledgment) is returned. -/
theorem C8_always_responds_counterexample :
    handleIncomingMessage exampleHubState "u1" "m1" "hello" 0 failingNameIngest =
      Except.error "Firestore unavailable" := rfl

/-- C8 (amended): provided the three context-building storage reads succeed,
every call of handleIncomingMessage returns a response: the generated
response text on the success path, or the fixed processing acknowledgment
whenever the processing attempt or its downstream handling throws — the
internal error is never the value returned to the caller. Only a failure of
one of the context-building reads themselves escapes as a raw error. -/
theorem C8_always_responds_amended (st : HubState)
    (userId msgId content name status : String) (now : Nat) (o : IngestOracle)
    (h1 : o.userNameRead = Except.ok name)
    (h2 : o.currentTasksRead = Except.ok ())
    (h3 : o.userStatusRead = Except.ok status) :
    ∃ st2 effs resp,
      handleIncomingMessage st userId msgId content now o =
        Except.ok (st2, effs, resp)
      ∧ (resp = o.responseText ∨ resp = processingAckText) := by
  cases hp : o.processOutcome with
  | error e =>
      refine ⟨enqueueFallback st (builtMessage userId msgId content name status now),
              HubEffect.processAttempt (getAvailableProcessor st.worker1 st.worker2) ::
                (if st.activeConnections.contains userId
                 then [HubEffect.socketAck userId msgId] else []),
              processingAckText, ?_, Or.inr rfl⟩
      simp [handleIncomingMessage, h1, h2, h3, hp]
  | ok processed =>
      cases hd : handleProcessedMessage (some processed) o.downstream
          st.activeConnections now with
      | error e =>
          refine ⟨enqueueFallback st (builtMessage userId msgId content name status now),
                  HubEffect.processAttempt (getAvailableProcessor st.worker1 st.worker2) ::
                    (if st.activeConnections.contains userId
                     then [HubEffect.socketAck userId msgId] else []),
                  processingAckText, ?_, Or.inr rfl⟩
          simp [handleIncomingMessage, h1, h2, h3, hp, hd]
      | ok effs =>
          refine ⟨st,
                  HubEffect.processAttempt (getAvailableProcessor st.worker1 st.worker2) :: effs,
                  o.responseText, ?_, Or.inl rfl⟩
          simp [handleIncomingMessage, h1, h2, h3, hp, hd]

/-- Closed instance of C8 (amended): with all collaborators succeeding, the
caller receives a response. -/
theorem C8_always_responds_amended_witness :
    ∃ st2 effs resp,
      handleIncomingMessage exampleHubState "u1" "m1" "hello" 0 quietIngest =
        Except.ok (st2, effs, resp)
      ∧ (resp = quietIngest.responseText ∨ resp = processingAckText) :=
  C8_always_responds_amended exampleHubState "u1" "m1" "hello" "User One"
    "active" 0 quietIngest rfl rfl rfl

/-! Section 6: the queue drain loop startQueueProcessor
(functions/src/core/userCommunicationHub.ts, lines 129-139). -/

/-- The fixed interval of the drain loop timer, in milliseconds. -/
def queueProcessorIntervalMs : Nat := 100

/-- Embeds one tick of the setInterval callback of startQueueProcessor:
when the queue is non-empty, dequeue one message and submit it to the
worker selected by the same getAvailableProcessor rule as the immediate
path; otherwise do nothing. -/
def queueProcessorTick (st : HubState) :
    HubState × Option (UserMessage × ProcessorChoice) :=
  if st.messageQueue.isEmpty then (st, none)
  else
    match st.messageQueue.dequeue with
    | (none, _) => (st, none)
    | (some e, q2) =>
        ({ st with messageQueue := q2 },
         some (e.item, getAvailableProcessor st.worker1 st.worker2))

theorem removeBySequence_length {T : Type} (l : List (QueueEntry T)) (s : Nat) :
    l.length - 1 ≤ (PriorityQueue.removeBySequence l s).length
    ∧ (PriorityQueue.removeBySequence l s).length ≤ l.length := by
  induction l with
  | nil => simp [PriorityQueue.removeBySequence]
  | cons e rest ih =>
      rw [PriorityQueue.removeBySequence]
      split
      · simp only [List.length_cons]
        omega
      · simp only [List.length_cons]
        omega

theorem dequeue_size {T : Type} (q : PriorityQueue T) :
    q.size - 1 ≤ q.dequeue.2.size ∧ q.dequeue.2.size ≤ q.size := by
  cases hq : q.entries with
  | nil => simp [PriorityQueue.dequeue, PriorityQueue.dequeueList, PriorityQueue.size, hq]
  | cons a rest =>
      have h := removeBySequence_length (a :: rest)
        (PriorityQueue.selectBest a rest).sequence
      simp only [PriorityQueue.dequeue, PriorityQueue.dequeueList, PriorityQueue.size, hq]
      exact h

theorem queueProcessorTick_none (st : HubState)
    (he : st.messageQueue.isEmpty = false) (q2 : PriorityQueue UserMessage)
    (hd : st.messageQueue.dequeue = (none, q2)) :
    queueProcessorTick st = (st, none) := by
  simp [queueProcessorTick, he, hd]

theorem queueProcessorTick_some (st : HubState)
    (he : st.messageQueue.isEmpty = false) (e : QueueEntry UserMessage)
    (q2 : PriorityQueue UserMessage)
    (hd : st.messageQueue.dequeue = (some e, q2)) :
    queueProcessorTick st =
      ({ st with messageQueue := q2 },
       some (e.item, getAvailableProcessor st.worker1 st.worker2)) := by
  simp [queueProcessorTick, he, hd]

/-- C9: on every tick of the 100ms drain loop, a dequeue is attempted only
when the queue is non-empty (an empty queue leaves the state untouched and
submits nothing), at most one entry leaves the queue, and a dequeued
message is submitted to the worker chosen by getAvailableProcessor — the
same selection rule the immediate path applies. -/
theorem C9_drain_tick (st : HubState) :
    (st.messageQueue.isEmpty = true → queueProcessorTick st = (st, none))
    ∧ (st.messageQueue.size - 1 ≤ (queueProcessorTick st).1.messageQueue.size
        ∧ (queueProcessorTick st).1.messageQueue.size ≤ st.messageQueue.size)
    ∧ (∀ m choice, (queueProcessorTick st).2 = some (m, choice) →
        st.messageQueue.isEmpty = false
        ∧ choice = getAvailableProcessor st.worker1 st.worker2)
    ∧ queueProcessorIntervalMs = 100 := by
  refine ⟨fun he => by simp [queueProcessorTick, he], ?_, ?_, rfl⟩
  · cases he : st.messageQueue.isEmpty with
    | true => simp [queueProcessorTick, he]
    | false =>
        have hs := dequeue_size st.messageQueue
        cases hd : st.messageQueue.dequeue with
        | mk r q2 =>
            rw [hd] at hs
            cases r with
            | none =>
                rw [queueProcessorTick_none st he q2 hd]
                exact ⟨Nat.sub_le _ _, Nat.le_refl _⟩
            | some e =>
                rw [queueProcessorTick_some st he e q2 hd]
                exact hs
  · intro m choice hsub
    cases he : st.messageQueue.isEmpty with
    | true => simp [queueProcessorTick, he] at hsub
    | false =>
        refine ⟨rfl, ?_⟩
        cases hd : st.messageQueue.dequeue with
        | mk r q2 =>
            cases r with
            | none =>
                rw [queueProcessorTick_none st he q2 hd] at hsub
                simp at hsub
            | some e =>
                rw [queueProcessorTick_some st he e q2 hd] at hsub
                have hinj := Option.some.inj hsub
                injection hinj with hm hc
                exact hc.symm

/-- Closed instance of C9: a tick on an empty queue dequeues nothing and
leaves the hub state unchanged. -/
theorem C9_drain_tick_witness :
    queueProcessorTick exampleHubState = (exampleHubState, none) :=
  (C9_drain_tick exampleHubState).1 rfl

/-! Section 7: the message router. The implementation file
functions/src/core/messageRouter.ts is not among the provided sources (only
its callers are), so the router is modelled from the spec's contract in
section 4.2. -/

/-- Modelled from the spec: router state is the list of (type, handler)
registrations in registration order; a handler takes the envelope and either
returns normally or raises (functions/src/core/messageRouter.ts is missing
from the sources). -/
structure MessageRouter (P : Type) where
  registrations : List (String × (Envelope P → Except String Unit))

/-- Modelled from the spec: registerHandler appends one registration; many
handlers per type are allowed. -/
def registerHandler {P : Type} (r : MessageRouter P) (t : String)
    (handler : Envelope P → Except String Unit) : MessageRouter P :=
  ⟨r.registrations ++ [(t, handler)]⟩

/-- The handlers registered for a type, in registration order. -/
def handlersFor {P : Type} (r : MessageRouter P) (t : String) :
    List (Envelope P → Except String Unit) :=
  (r.registrations.filter (fun reg => reg.1 == t)).map Prod.snd

/-- What the dispatch loop records for one handler invocation: a normal
delivery, or a caught DeliveryError. -/
inductive RouterEvent
  | handled
  | deliveryError (message : String)
deriving Repr, DecidableEq

/-- The event one handler outcome produces. -/
def eventOf (outcome : Except String Unit) : RouterEvent :=
  match outcome with
  | Except.ok _ => RouterEvent.handled
  | Except.error e => RouterEvent.deliveryError e

/-- Modelled from the spec: the dispatch loop of sendMessage invokes every
handler in order; an exception raised by a handler is caught and recorded as
a DeliveryError and the loop continues with the next handler. -/
def dispatchHandlers {P : Type} (env : Envelope P) :
    List (Envelope P → Except String Unit) → List RouterEvent
  | [] => []
  | handler :: rest => eventOf (handler env) :: dispatchHandlers env rest

/-- Modelled from the spec: sendMessage looks up all handlers registered for
the envelope's type and invokes each; it resolves with the recorded events
and never rejects, since every handler error is caught inside the loop. -/
def sendMessage {P : Type} (r : MessageRouter P) (env : Envelope P) :
    Except String (List RouterEvent) :=
  Except.ok (dispatchHandlers env (handlersFor r env.type))

theorem dispatchHandlers_length {P : Type} (env : Envelope P)
    (hs : List (Envelope P → Except String Unit)) :
    (dispatchHandlers env hs).length = hs.length := by
  induction hs with
  | nil => rfl
  | cons handler rest ih => simp [dispatchHandlers, ih]

theorem dispatchHandlers_get {P : Type} (env : Envelope P)
    (hs : List (Envelope P → Except String Unit)) :
    ∀ i : Nat, (dispatchHandlers env hs).get? i =
      (hs.get? i).map (fun handler => eventOf (handler env)) := by
  induction hs with
  | nil => intro i; cases i <;> rfl
  | cons handler rest ih =>
      intro i
      cases i with
      | zero => rfl
      | succ j => simpa [dispatchHandlers] using ih j

/-- A handler that always throws. -/
def throwingHandler : Envelope Unit → Except String Unit :=
  fun _ => Except.error "handler boom"

/-- A handler that always returns normally. -/
def quietHandler : Envelope Unit → Except String Unit :=
  fun _ => Except.ok ()

/-- A router with two handlers registered for type X, the first of which
throws. -/
def exampleRouter : MessageRouter Unit :=
  registerHandler (registerHandler ⟨[]⟩ "X" throwingHandler) "X" quietHandler

/-- An envelope of type X. -/
def exampleEnvelope : Envelope Unit :=
  { type := "X"
  , source := "test_sender"
  , target := ""
  , payload := ()
  , priority := 3
  , timestamp := 0 }

/-- C4: for every router and envelope, sendMessage resolves normally — it
never re-throws a handler's error — and the dispatch records exactly one
event per handler registered for the envelope's type, the i-th event being
the i-th handler's own outcome, so a throwing handler never prevents any
other handler from executing exactly once; in particular, with two handlers
registered for type X of which the first throws, the second still runs and
sendMessage resolves with the caught DeliveryError followed by the normal
delivery. -/
theorem C4_handler_isolation {P : Type} (r : MessageRouter P) (env : Envelope P) :
    sendMessage r env = Except.ok (dispatchHandlers env (handlersFor r env.type))
    ∧ (dispatchHandlers env (handlersFor r env.type)).length =
        (handlersFor r env.type).length
    ∧ (∀ i : Nat, (dispatchHandlers env (handlersFor r env.type)).get? i =
        ((handlersFor r env.type).get? i).map (fun handler => eventOf (handler env)))
    ∧ sendMessage exampleRouter exampleEnvelope =
        Except.ok [RouterEvent.deliveryError "handler boom", RouterEvent.handled] :=
  ⟨rfl, dispatchHandlers_length env (handlersFor r env.type),
   dispatchHandlers_get env (handlersFor r env.type), rfl⟩

/-! Section 8: the agent lifecycle manager
(functions/src/core/agentManager.ts). -/

/-- The agent kinds constructed by the manager, including the dynamic
per-user compiler. -/
inductive AgentKind
  | roadmapOrchestrator
  | repositoryScannerManager
  | progressCoordinator
  | decisionEngine
  | userCompiler (userId : String)
  | codeExtractor
  | editCoordinator
  | communicationHub
deriving Repr, DecidableEq

/-- State of AgentManager: the registry in insertion order, one-shot
counters for the three core-service bring-ups, the monitor flags, and the
initialized flag. -/
structure AgentManagerState where
  agents : List (String × AgentKind)
  routerInitCount : Nat
  healthInitCount : Nat
  tokenInitCount : Nat
  monitoringStarted : Bool
  trackingStarted : Bool
  initialized : Bool
deriving Repr, DecidableEq

/-- The state the AgentManager constructor produces. -/
def freshManager : AgentManagerState := ⟨[], 0, 0, 0, false, false, false⟩

/-- Embeds the registry built by initializeAgents, in construction order,
with one user compiler per record read from the users collection. -/
def initAgents (users : List String) : List (String × AgentKind) :=
  [("roadmap_orchestrator", AgentKind.roadmapOrchestrator),
   ("repository_scanner_manager", AgentKind.repositoryScannerManager),
   ("progress_coordinator", AgentKind.progressCoordinator),
   ("decision_engine", AgentKind.decisionEngine)]
  ++ users.map (fun u => ("user_compiler_" ++ u, AgentKind.userCompiler u))
  ++ [("code_extractor", AgentKind.codeExtractor),
      ("edit_coordinator", AgentKind.editCoordinator),
      ("communication_hub", AgentKind.communicationHub)]

/-- Embeds the success path of AgentManager initialization: when the
initialized flag is already set the call logs and returns immediately,
changing nothing; otherwise the three core services are brought up, the
agents are constructed in dependency order, monitoring and tracking are
started, and the flag is set. -/
def initManager (s : AgentManagerState) (users : List String) : AgentManagerState :=
  if s.initialized then s
  else
    { agents := initAgents users
    , routerInitCount := s.routerInitCount + 1
    , healthInitCount := s.healthInitCount + 1
    , tokenInitCount := s.tokenInitCount + 1
    , monitoringStarted := true
    , trackingStarted := true
    , initialized := true }

/-- C5: initialization is idempotent — after any call the next call is a
no-op returning the state unchanged (in particular after a successful first
call on the freshly constructed manager), the core services are brought up
and the agent registry constructed exactly once, and the registry contents
are unchanged by the second call, whatever either call would read from the
users collection. -/
theorem C5_idempotent_initialization (s : AgentManagerState)
    (users users2 : List String) :
    initManager (initManager s users) users2 = initManager s users
    ∧ (initManager freshManager users).routerInitCount = 1
    ∧ (initManager freshManager users).healthInitCount = 1
    ∧ (initManager freshManager users).tokenInitCount = 1
    ∧ (initManager freshManager users).agents = initAgents users
    ∧ (initManager (initManager freshManager users) users2).agents =
        initAgents users := by
  refine ⟨?_, rfl, rfl, rfl, rfl, ?_⟩
  · by_cases h : s.initialized
    · simp [initManager, h]
    · simp [initManager, h]
  · rfl

/-- One observable effect of a manager operation, in execution order. -/
inductive ManagerEffect
  | routerSend (msgType : String) (target : String)
  | compilerCleanup (userId : String)
  | registryDelete (key : String)
  | storeUserStatus (userId : String) (status : String)
deriving Repr, DecidableEq

/-- Embeds AgentManager.removeUser: notify the roadmap orchestrator with a
USER_DEPARTED envelope, run the registered compiler's cleanup hook when the
instance exposes one, delete the registry entry, and only then update the
persisted user status to inactive. hasCleanupHook tells whether the
registered compiler instance exposes a cleanup method. -/
def removeUser (s : AgentManagerState) (userId : String) (hasCleanupHook : Bool) :
    AgentManagerState × List ManagerEffect :=
  ({ s with agents :=
      s.agents.filter (fun a => !(a.1 == "user_compiler_" ++ userId)) },
   [ManagerEffect.routerSend "USER_DEPARTED" "roadmap_orchestrator"]
   ++ (if s.agents.any (fun a => a.1 == "user_compiler_" ++ userId) && hasCleanupHook
       then [ManagerEffect.compilerCleanup userId]
       else [])
   ++ [ManagerEffect.registryDelete ("user_compiler_" ++ userId),
       ManagerEffect.storeUserStatus userId "inactive"])

/-- Index of the first effect satisfying the test. -/
def firstIdx (p : ManagerEffect → Bool) : List ManagerEffect → Option Nat
  | [] => none
  | e :: rest => if p e then some 0 else (firstIdx p rest).map (· + 1)

/-- Whether an effect is the persisted-status update. -/
def isStoreUserStatus : ManagerEffect → Bool
  | ManagerEffect.storeUserStatus _ _ => true
  | _ => false

/-- Whether an effect is the registry deletion. -/
def isRegistryDelete : ManagerEffect → Bool
  | ManagerEffect.registryDelete _ => true
  | _ => false

/-- Whether the trace performs the persisted status update strictly before
the registry entry deletion. -/
def statusUpdateBeforeDelete (tr : List ManagerEffect) : Bool :=
  match firstIdx isStoreUserStatus tr, firstIdx isRegistryDelete tr with
  | some i, some j => decide (i < j)
  | _, _ => false

/-- A manager state holding one registered user compiler. -/
def exampleManagerState : AgentManagerState :=
  { agents := [("user_compiler_u1", AgentKind.userCompiler "u1")]
  , routerInitCount := 1
  , healthInitCount := 1
  , tokenInitCount := 1
  , monitoringStarted := true
  , trackingStarted := true
  , initialized := true }

/-- C6 counterexample: removing user u1 from a manager holding that user's
compiler produces the effect trace notify, cleanup, registry delete, status
update — the persisted user status update happens strictly after the
registry entry is deleted, not before, so the registry does drop the entry
while the stored status is still un-updated. -/
theorem C6_remove_user_counterexample :
    (removeUser exampleManagerState "u1" true).2 =
      [ManagerEffect.routerSend "USER_DEPARTED" "roadmap_orchestrator",
       ManagerEffect.compilerCleanup "u1",
       ManagerEffect.registryDelete "user_compiler_u1",
       ManagerEffect.storeUserStatus "u1" "inactive"]
    ∧ statusUpdateBeforeDelete (removeUser exampleManagerState "u1" true).2 = false := by
  exact ⟨rfl, rfl⟩

/-- C6 (amended): for every manager state and user, removeUser deletes the
registry entry first and updates the persisted user status only afterwards:
the registry deletion immediately followed by the status update always form
the tail of the effect trace, and the final registry no longer holds the
user compiler entry. -/
theorem C6_remove_user_amended (s : AgentManagerState) (userId : String)
    (hook : Bool) :
    (∃ front, (removeUser s userId hook).2 =
        front ++ [ManagerEffect.registryDelete ("user_compiler_" ++ userId),
                  ManagerEffect.storeUserStatus userId "inactive"])
    ∧ ((removeUser s userId hook).1.agents.any
        (fun a => a.1 == "user_compiler_" ++ userId)) = false := by
  constructor
  · refine ⟨[ManagerEffect.routerSend "USER_DEPARTED" "roadmap_orchestrator"]
        ++ (if s.agents.any (fun a => a.1 == "user_compiler_" ++ userId) && hook
            then [ManagerEffect.compilerCleanup userId]
            else []), ?_⟩
    simp [removeUser]
  · have hgen : ∀ l : List (String × AgentKind),
        ((l.filter (fun a => !(a.1 == "user_compiler_" ++ userId))).any
          (fun a => a.1 == "user_compiler_" ++ userId)) = false := by
      intro l
      induction l with
      | nil => rfl
      | cons x xs ih =>
          cases hx : (x.1 == "user_compiler_" ++ userId) with
          | true => simp [List.filter, hx, ih]
          | false => simp [List.filter, List.any, hx, ih]
    exact hgen s.agents

end HackathonAgent
